import Mathlib

/-!
Verification of the brazilian-ecommerce service core: a shallow embedding of
the error taxonomy (`error.rs`), the resource services (`services.rs`), the
Postgres repository adapters (`repositories.rs`, modelled as pure functions
over an explicit table state), and the CSV bulk-ingestion loop
(`handlers.rs::load_csv_data`), together with theorems about their behaviour.

Storage interaction is embedded by passing the repository operation as a
function argument (the Rust services hold an `Arc<dyn …Repository>`); async
and the connection pool are irrelevant to the properties proved and are
elided.  Where a construct performs calls whose absence matters (the "zero
repository invocations" properties), the embedding additionally returns a
ghost trace listing the repository invocations it made; the Rust function's
return value is the first component.

The repository's `models.rs` is not among the provided sources (only its
callers are), so the data shapes, `PaginationParams::normalize` and
`PaginatedResponse::new` are modelled from the specification; each such
definition is marked `Modelled from the spec:` in its doc comment.
-/

namespace Ecommerce

/-- Embeds `sqlx::Error` as far as the service layer inspects it:
`Database` carries the backend error's optional SQLSTATE code (`db_err.code()`)
and its message; every other variant is opaque to the services. -/
inductive SqlxError where
  | Database (code : Option String) (message : String)
  | RowNotFound
  | Other (message : String)
deriving DecidableEq

/-- Embeds `error.rs::AppError`.  `validator::ValidationErrors`,
`sqlx::migrate::MigrateError` and the payload of `ConfigError` are modelled
as opaque strings. -/
inductive AppError where
  | DatabaseError (e : SqlxError)
  | MigrationError (message : String)
  | NotFound
  | ConfigError (message : String)
  | ValidationError (message : String)
  | NoChangesToUpdate
  | AlreadyExists (message : String)
deriving DecidableEq

/-- Embeds `error.rs::map_db_error`: a database error whose SQLSTATE code is
`23505` becomes `AlreadyExists("{resource_name} already exists")`; every other
storage error becomes `DatabaseError`. -/
def map_db_error (e : SqlxError) (resource_name : String) : AppError :=
  match e with
  | SqlxError.Database code _ =>
      if code = some "23505" then
        AppError.AlreadyExists (resource_name ++ " already exists")
      else AppError.DatabaseError e
  | _ => AppError.DatabaseError e

/-- A storage error is a unique-constraint violation when it is a backend
database error with SQLSTATE code 23505. -/
def is_unique_violation : SqlxError → Bool
  | SqlxError.Database code _ => code == some "23505"
  | _ => false

/-- Embeds the common shape of the four service `create` operations
(`CustomerService::create_customer`, `SellerService::create_seller`,
`OrderService::create_order`, `ProductService::create_product` in
`services.rs`): `dto.validate()?` then `repository.create(dto)` with storage
errors mapped through `map_db_error` for the given resource name. -/
def create_resource {D E : Type} (resource_name : String)
    (validate : D → Except String Unit)
    (repo_create : D → Except SqlxError E) (dto : D) : Except AppError E :=
  match validate dto with
  | Except.error msg => Except.error (AppError.ValidationError msg)
  | Except.ok _ =>
      match repo_create dto with
      | Except.ok entity => Except.ok entity
      | Except.error e => Except.error (map_db_error e resource_name)

/-- `CustomerService::create_customer` is `create_resource` at resource name
"Customer". -/
def create_customer {D E : Type} (validate : D → Except String Unit)
    (repo_create : D → Except SqlxError E) (dto : D) : Except AppError E :=
  create_resource "Customer" validate repo_create dto

/-- `SellerService::create_seller` is `create_resource` at "Seller". -/
def create_seller {D E : Type} (validate : D → Except String Unit)
    (repo_create : D → Except SqlxError E) (dto : D) : Except AppError E :=
  create_resource "Seller" validate repo_create dto

/-- `OrderService::create_order` is `create_resource` at "Order". -/
def create_order {D E : Type} (validate : D → Except String Unit)
    (repo_create : D → Except SqlxError E) (dto : D) : Except AppError E :=
  create_resource "Order" validate repo_create dto

/-- `ProductService::create_product` is `create_resource` at "Product". -/
def create_product {D E : Type} (validate : D → Except String Unit)
    (repo_create : D → Except SqlxError E) (dto : D) : Except AppError E :=
  create_resource "Product" validate repo_create dto

/-- Modelled from the spec: the `Customer` entity of the missing `models.rs`,
with the five columns of the `customers` table (`repositories.rs` SQL).  The
zip code prefix is modelled as an integer. -/
structure Customer where
  customer_id : String
  customer_unique_id : String
  customer_zip_code_prefix : Int
  customer_city : String
  customer_state : String
deriving DecidableEq

/-- Modelled from the spec: `CreateCustomerDto` of the missing `models.rs`,
the full payload of the `customers` insert. -/
structure CreateCustomerDto where
  customer_id : String
  customer_unique_id : String
  customer_zip_code_prefix : Int
  customer_city : String
  customer_state : String
deriving DecidableEq

/-- Modelled from the spec: `UpdateCustomerDto` of the missing `models.rs`,
the partial-update payload; exactly the four updatable fields checked by
`CustomerService::update_customer`, each optional. -/
structure UpdateCustomerDto where
  customer_unique_id : Option String
  customer_zip_code_prefix : Option Int
  customer_city : Option String
  customer_state : Option String
deriving DecidableEq

/-- Embeds `CustomerService::update_customer` (`services.rs`):
`dto.validate()?`; then if all four updatable fields are `None`, fail with
`NoChangesToUpdate`; otherwise `repository.update(id, dto)` (storage errors
lifted to `DatabaseError` by the `?` conversion), with `None` mapped to
`NotFound`.  The second component is a ghost trace of the repository
invocations made (the Rust function returns only the first component). -/
def update_customer (validate : UpdateCustomerDto → Except String Unit)
    (repo_update : String → UpdateCustomerDto → Except SqlxError (Option Customer))
    (id : String) (dto : UpdateCustomerDto) :
    Except AppError Customer × List (String × UpdateCustomerDto) :=
  match validate dto with
  | Except.error msg => (Except.error (AppError.ValidationError msg), [])
  | Except.ok _ =>
      if dto.customer_unique_id.isNone && dto.customer_zip_code_prefix.isNone
          && dto.customer_city.isNone && dto.customer_state.isNone then
        (Except.error AppError.NoChangesToUpdate, [])
      else
        match repo_update id dto with
        | Except.error e => (Except.error (AppError.DatabaseError e), [(id, dto)])
        | Except.ok none => (Except.error AppError.NotFound, [(id, dto)])
        | Except.ok (some c) => (Except.ok c, [(id, dto)])

/-- Embeds `CustomerService::delete_customer` (`services.rs`):
`rows_affected = repository.delete(id)?`; zero affected rows becomes
`NotFound`, otherwise success with no payload. -/
def delete_customer (repo_delete : String → Except SqlxError Nat)
    (id : String) : Except AppError Unit :=
  match repo_delete id with
  | Except.error e => Except.error (AppError.DatabaseError e)
  | Except.ok rows => if rows = 0 then Except.error AppError.NotFound else Except.ok ()

/-- Embeds the storage semantics of `PgCustomerRepository::delete`
(`DELETE FROM customers WHERE customer_id = $1` reported by affected-row
count) over an explicit table state: returns the table without the matching
rows together with the number of rows removed. -/
def pg_customer_delete (store : List Customer) (id : String) : List Customer × Nat :=
  (store.filter (fun c => !(c.customer_id == id)),
   store.countP (fun c => c.customer_id == id))

/-- Embeds the storage semantics of `PgCustomerRepository::create`
(`INSERT INTO customers … RETURNING …`) over an explicit table state with the
primary-key uniqueness constraint on `customer_id`: inserting a duplicate id
fails with a backend error carrying SQLSTATE 23505. -/
def pg_customer_create (store : List Customer) (dto : CreateCustomerDto) :
    Except SqlxError (List Customer × Customer) :=
  if store.any (fun c => c.customer_id == dto.customer_id) then
    Except.error (SqlxError.Database (some "23505")
      "duplicate key value violates unique constraint")
  else
    let c : Customer := ⟨dto.customer_id, dto.customer_unique_id,
      dto.customer_zip_code_prefix, dto.customer_city, dto.customer_state⟩
    Except.ok (store ++ [c], c)

/-- Embeds the record loop of `handlers.rs::load_csv_data`: each yielded
record is either a parsed value or a CSV parse error; a parse error
increments `error_count` and processing continues; a parsed record is passed
to `process_fn`, whose success increments `success_count` and whose failure
increments `error_count`, in both cases continuing with the next record.
Returns the counts together with a ghost trace of the records dispatched to
`process_fn`. -/
def load_csv_loop {T : Type} (process_fn : T → Except AppError Unit) :
    List (Except String T) → (Nat × Nat) × List T
  | [] => ((0, 0), [])
  | Except.error _ :: rest =>
      let r := load_csv_loop process_fn rest
      ((r.1.1, r.1.2 + 1), r.2)
  | Except.ok record :: rest =>
      let r := load_csv_loop process_fn rest
      match process_fn record with
      | Except.ok _ => ((r.1.1 + 1, r.1.2), record :: r.2)
      | Except.error _ => ((r.1.1, r.1.2 + 1), record :: r.2)

/-- Embeds `handlers.rs::load_csv_data`.  The record source is the outcome of
`csv::Reader::from_path` followed by `rdr.deserialize()`: either an open
failure (mapped to `ConfigError("Failed to open CSV file: …")` and returned
fatally) or the sequence of per-record parse results, which is processed by
`load_csv_loop` and always yields `Ok((success_count, error_count))`. -/
def load_csv_data {T : Type} (source : Except String (List (Except String T)))
    (process_fn : T → Except AppError Unit) : Except AppError (Nat × Nat) :=
  match source with
  | Except.error e =>
      Except.error (AppError.ConfigError ("Failed to open CSV file: " ++ e))
  | Except.ok results => Except.ok (load_csv_loop process_fn results).1

/-- The ghost trace of records dispatched by `load_csv_data`: empty when the
source fails to open (the loop body is never reached). -/
def load_csv_dispatched {T : Type} (source : Except String (List (Except String T)))
    (process_fn : T → Except AppError Unit) : List T :=
  match source with
  | Except.error _ => []
  | Except.ok results => (load_csv_loop process_fn results).2

/-- A yielded record counts as a success when it parses and its dispatch
through `process_fn` succeeds. -/
def record_success {T : Type} (process_fn : T → Except AppError Unit) :
    Except String T → Bool
  | Except.ok record =>
      match process_fn record with
      | Except.ok _ => true
      | Except.error _ => false
  | Except.error _ => false

/-- Modelled from the spec: `PaginationParams` of the missing `models.rs` —
optional untrusted `page` and `page_size` query parameters. -/
structure PaginationParams where
  page : Option Int
  page_size : Option Int
deriving DecidableEq

/-- Modelled from the spec: the default page size ("e.g., 10"). -/
def DEFAULT_PAGE_SIZE : Int := 10

/-- Modelled from the spec: the maximum page size MAX_PAGE_SIZE. -/
def MAX_PAGE_SIZE : Int := 100

/-- Modelled from the spec: `PaginationParams::normalize` of the missing
`models.rs`, parametric in the default and maximum page size.  A supplied
page below 1 (or an unset page) is treated as 1; a page_size below 1 or
unset becomes the default, one above the maximum is clamped to the maximum;
`limit = page_size` and `offset = (page - 1) * page_size`.  It is a total
function: invalid input is corrected, never rejected. -/
def normalizeWith (dflt mx : Int) (p : PaginationParams) : Int × Int × Int × Int :=
  let page : Int :=
    match p.page with
    | some pg => if pg < 1 then 1 else pg
    | none => 1
  let page_size : Int :=
    match p.page_size with
    | some ps => if ps < 1 then dflt else if ps > mx then mx else ps
    | none => dflt
  (page_size, (page - 1) * page_size, page, page_size)

/-- Modelled from the spec: `PaginationParams::normalize` at the concrete
default and maximum page sizes. -/
def PaginationParams.normalize (p : PaginationParams) : Int × Int × Int × Int :=
  normalizeWith DEFAULT_PAGE_SIZE MAX_PAGE_SIZE p

/-- Modelled from the spec: `PaginatedResponse<T>` of the missing
`models.rs`. -/
structure PaginatedResponse (α : Type) where
  items : List α
  total_records : Nat
  page : Int
  page_size : Nat
  total_pages : Nat
deriving DecidableEq

/-- Modelled from the spec: `PaginatedResponse::new` of the missing
`models.rs`, computing `total_pages = ceil(total_records / page_size)` with
the usual integer formula. -/
def PaginatedResponse.new {α : Type} (items : List α) (total_records : Nat)
    (page : Int) (page_size : Nat) : PaginatedResponse α :=
  ⟨items, total_records, page, page_size, (total_records + page_size - 1) / page_size⟩

/-- Modelled from the spec: the `Seller` entity, the four columns of the
`sellers` table (`repositories.rs` SQL). -/
structure Seller where
  seller_id : String
  seller_zip_code_prefix : Int
  seller_city : String
  seller_state : String
deriving DecidableEq

/-- Modelled from the spec: the location filter (`SellerFilter` /
`CustomerFilter` of the missing `models.rs`) — optional equality predicates
on city and state. -/
structure LocationFilter where
  city : Option String
  state : Option String
deriving DecidableEq

/-- The WHERE clause of the seller queries:
`($1::text IS NULL OR seller_city = $1) AND ($2::text IS NULL OR seller_state = $2)`. -/
def seller_matches (filter : LocationFilter) (s : Seller) : Bool :=
  (match filter.city with
   | none => true
   | some c => s.seller_city == c) &&
  (match filter.state with
   | none => true
   | some st => s.seller_state == st)

/-- The WHERE clause of the customer queries, same shape over
`customer_city` / `customer_state`. -/
def customer_matches (filter : LocationFilter) (c : Customer) : Bool :=
  (match filter.city with
   | none => true
   | some ci => c.customer_city == ci) &&
  (match filter.state with
   | none => true
   | some st => c.customer_state == st)

/-- Insert an element into a list sorted by `key` descending, before the
first element whose key is not larger; elements with equal keys keep their
relative order (stable insertion). -/
def insert_desc {α : Type} (key : α → Int) (a : α) : List α → List α
  | [] => [a]
  | b :: l => if key b ≤ key a then a :: b :: l else b :: insert_desc key a l

/-- Stable insertion sort by `key` descending: the deterministic semantics of
a SQL `ORDER BY key DESC`. -/
def sort_desc {α : Type} (key : α → Int) : List α → List α
  | [] => []
  | a :: l => insert_desc key a (sort_desc key l)

/-- Embeds `PgSellerRepository::find_all` (`repositories.rs`) over an
explicit table state.  `rows` is the storage engine's enumeration of the
`sellers` table: the SELECT has no ORDER BY clause, so the row order handed
back by the store is whatever enumeration the engine chooses for that query,
and it therefore appears as an input.  The count is `COUNT(*)` under the same
filter, independent of limit/offset; the page is `LIMIT limit OFFSET offset`
over the filtered enumeration, with limit and offset from
`pagination.normalize()`. -/
def seller_find_all (rows : List Seller) (filter : LocationFilter)
    (pagination : PaginationParams) : List Seller × Nat :=
  let n := pagination.normalize
  let matching := rows.filter (seller_matches filter)
  (((matching.drop n.2.1.toNat).take n.1.toNat), matching.length)

/-- Embeds `PgCustomerRepository::find_all` (`repositories.rs`) over an
explicit table state: same filter and count, but the SELECT carries
`ORDER BY customer_zip_code_prefix DESC`, so the page is taken from the
sorted filtered rows and does not depend on the storage enumeration beyond
the order of equal keys. -/
def customer_find_all (rows : List Customer) (filter : LocationFilter)
    (pagination : PaginationParams) : List Customer × Nat :=
  let n := pagination.normalize
  let matching := rows.filter (customer_matches filter)
  ((((sort_desc (fun c => c.customer_zip_code_prefix) matching).drop n.2.1.toNat).take
      n.1.toNat),
   matching.length)

/-- Modelled from the spec: the `Order` entity, the eight columns of the
`orders` table (`repositories.rs` SQL); timestamps are modelled as strings,
the three post-purchase dates as optional. -/
structure Order where
  order_id : String
  customer_id : String
  order_status : String
  order_purchase_timestamp : String
  order_approved_at : Option String
  order_delivered_carrier_date : Option String
  order_delivered_customer_date : Option String
  order_estimated_delivery_date : String
deriving DecidableEq

/-- Modelled from the spec: the joined row returned by
`PgOrderRepository::find_products_by_order_id` (product descriptor columns
joined with the order item's `shipping_limit_date`, `price` and
`freight_value`).  The monetary columns are `BigDecimal` in the source,
embedded as exact rationals. -/
structure OrderProduct where
  product_id : String
  product_category_name : Option String
  product_name_lenght : Option Int
  product_description_lenght : Option Int
  product_photos_qty : Option Int
  product_weight_g : Option Int
  product_length_cm : Option Int
  product_height_cm : Option Int
  product_width_cm : Option Int
  shipping_limit_date : String
  price : ℚ
  freight_value : ℚ
deriving DecidableEq

/-- Modelled from the spec: `OrderProductResponse` of the missing
`models.rs` — the joined product rows together with their aggregate monetary
value. -/
structure OrderProductResponse where
  products : List OrderProduct
  total_value : ℚ
deriving DecidableEq

/-- Modelled from the spec: the `Payment` entity, the five columns of the
`payments` table (`repositories.rs` SQL). -/
structure Payment where
  order_id : String
  payment_sequential : Int
  payment_type : String
  payment_installments : Int
  payment_value : ℚ
deriving DecidableEq

/-- Modelled from the spec: the `Review` entity, the seven columns of the
`reviews` table (`repositories.rs` SQL). -/
structure Review where
  review_id : String
  order_id : String
  review_score : Int
  review_comment_title : Option String
  review_comment_message : Option String
  review_creation_date : String
  review_answer_timestamp : String
deriving DecidableEq

/-- Embeds `OrderService::get_products_by_order_id` (`services.rs`): fetch
the joined rows (storage errors lifted to `DatabaseError` by `?`), then fold
`acc + product.price + product.freight_value` over them starting from
`BigDecimal::zero()`. -/
def get_products_by_order_id
    (repo_find : String → Except SqlxError (List OrderProduct))
    (id : String) : Except AppError OrderProductResponse :=
  match repo_find id with
  | Except.error e => Except.error (AppError.DatabaseError e)
  | Except.ok products =>
      Except.ok
        ⟨products,
         products.foldl (fun acc product => acc + product.price + product.freight_value) 0⟩

/-- Embeds `OrderService::get_payments_by_order_id` (`services.rs`): the
repository result is returned unchanged (storage errors lifted to
`DatabaseError` by `?`); an empty row set is a success, never `NotFound`. -/
def get_payments_by_order_id
    (repo_find : String → Except SqlxError (List Payment))
    (id : String) : Except AppError (List Payment) :=
  match repo_find id with
  | Except.error e => Except.error (AppError.DatabaseError e)
  | Except.ok payments => Except.ok payments

/-- Embeds `OrderService::get_reviews_by_order_id` (`services.rs`), same
shape as the payments read. -/
def get_reviews_by_order_id
    (repo_find : String → Except SqlxError (List Review))
    (id : String) : Except AppError (List Review) :=
  match repo_find id with
  | Except.error e => Except.error (AppError.DatabaseError e)
  | Except.ok reviews => Except.ok reviews

/-- Embeds `OrderService::get_order_by_id` (`services.rs`): an absent row
becomes `NotFound`. -/
def get_order_by_id (repo_find : String → Except SqlxError (Option Order))
    (id : String) : Except AppError Order :=
  match repo_find id with
  | Except.error e => Except.error (AppError.DatabaseError e)
  | Except.ok (some o) => Except.ok o
  | Except.ok none => Except.error AppError.NotFound

/-! ## Helper lemmas -/

theorem countP_add_countP_not {α : Type} (p : α → Bool) (l : List α) :
    l.countP p + l.countP (fun a => !p a) = l.length := by
  induction l with
  | nil => rfl
  | cons a l ih => cases h : p a <;> simp [List.countP_cons, h] <;> omega

theorem load_csv_loop_counts {T : Type} (process_fn : T → Except AppError Unit)
    (results : List (Except String T)) :
    (load_csv_loop process_fn results).1 =
      (results.countP (record_success process_fn),
       results.countP (fun r => !record_success process_fn r)) := by
  induction results with
  | nil => rfl
  | cons head rest ih =>
      cases head with
      | error e => simp [load_csv_loop, List.countP_cons, record_success, ih]
      | ok record =>
          cases h : process_fn record with
          | ok u => simp [load_csv_loop, List.countP_cons, record_success, h, ih]
          | error e => simp [load_csv_loop, List.countP_cons, record_success, h, ih]

/-! ## Claim theorems -/

/-- C1: the ingestion loop never aborts on a per-record failure: over any
opened source it returns `Ok((success_count, error_count))` where
`success_count` counts exactly the records that parse and dispatch
successfully, `error_count` counts exactly the records that fail to parse or
whose dispatch fails, and the two counts add up to the number of records
yielded; in particular a source of 3 valid and 2 malformed records yields
`(3, 2)`. -/
theorem c1_ingestion_per_record_isolation {T : Type}
    (results : List (Except String T)) (process_fn : T → Except AppError Unit) :
    load_csv_data (Except.ok results) process_fn =
      Except.ok (results.countP (record_success process_fn),
                 results.countP (fun r => !record_success process_fn r)) ∧
    results.countP (record_success process_fn) +
        results.countP (fun r => !record_success process_fn r) = results.length ∧
    load_csv_data
        (Except.ok [Except.ok (), Except.ok (), Except.error "bad", Except.ok (),
                    Except.error "also bad"])
        (fun _ : Unit => Except.ok ()) = Except.ok (3, 2) := by
  refine ⟨?_, countP_add_countP_not _ _, rfl⟩
  simp [load_csv_data, load_csv_loop_counts]

/-- C3: `load_csv_data` returns a fatal error iff opening the record source
fails; in that case the error is `ConfigError` and no record is dispatched. -/
theorem c3_open_failure_only_fatal {T : Type}
    (source : Except String (List (Except String T)))
    (process_fn : T → Except AppError Unit) :
    ((∃ a, load_csv_data source process_fn = Except.error a) ↔
      ∃ msg, source = Except.error msg) ∧
    (∀ msg, source = Except.error msg →
      load_csv_data source process_fn =
        Except.error (AppError.ConfigError ("Failed to open CSV file: " ++ msg)) ∧
      load_csv_dispatched source process_fn = []) := by
  constructor
  · constructor
    · rintro ⟨a, ha⟩
      cases source with
      | error msg => exact ⟨msg, rfl⟩
      | ok results => simp [load_csv_data] at ha
    · rintro ⟨msg, h⟩
      subst h
      exact ⟨_, rfl⟩
  · rintro msg h
    subst h
    exact ⟨rfl, rfl⟩

/-- Witness for C3 at a concrete unopenable source. -/
theorem c3_witness :
    load_csv_data (Except.error "no such file" : Except String (List (Except String Unit)))
        (fun _ => Except.ok ()) =
      Except.error (AppError.ConfigError ("Failed to open CSV file: " ++ "no such file")) ∧
    load_csv_dispatched (Except.error "no such file" : Except String (List (Except String Unit)))
        (fun _ => Except.ok ()) = [] :=
  (c3_open_failure_only_fatal (Except.error "no such file") (fun _ => Except.ok ())).2
    "no such file" rfl

/-- C2: for every input, `normalize` always succeeds (it is a total function)
and returns `(limit, offset, page, page_size)` with: a supplied page below 1
(or unset) becomes 1, a valid page is kept; a page_size below 1 or unset
becomes the default, one above the maximum is clamped to the maximum, a valid
one is kept; `limit = page_size`, `offset = (page - 1) * page_size`, and
limit, offset and page_size are never negative. -/
theorem c2_normalize_clamps (dflt mx : Int) (p : PaginationParams)
    (hd : 1 ≤ dflt) (hm : dflt ≤ mx) :
    1 ≤ (normalizeWith dflt mx p).2.2.1 ∧
    (p.page = none → (normalizeWith dflt mx p).2.2.1 = 1) ∧
    (∀ pg, p.page = some pg → pg < 1 → (normalizeWith dflt mx p).2.2.1 = 1) ∧
    (∀ pg, p.page = some pg → 1 ≤ pg → (normalizeWith dflt mx p).2.2.1 = pg) ∧
    (p.page_size = none → (normalizeWith dflt mx p).2.2.2 = dflt) ∧
    (∀ ps, p.page_size = some ps → ps < 1 → (normalizeWith dflt mx p).2.2.2 = dflt) ∧
    (∀ ps, p.page_size = some ps → mx < ps → (normalizeWith dflt mx p).2.2.2 = mx) ∧
    (∀ ps, p.page_size = some ps → 1 ≤ ps → ps ≤ mx →
      (normalizeWith dflt mx p).2.2.2 = ps) ∧
    1 ≤ (normalizeWith dflt mx p).2.2.2 ∧
    (normalizeWith dflt mx p).1 = (normalizeWith dflt mx p).2.2.2 ∧
    (normalizeWith dflt mx p).2.1 =
      ((normalizeWith dflt mx p).2.2.1 - 1) * (normalizeWith dflt mx p).2.2.2 ∧
    0 ≤ (normalizeWith dflt mx p).1 ∧
    0 ≤ (normalizeWith dflt mx p).2.1 := by
  obtain ⟨pageOpt, psOpt⟩ := p
  have hpage : 1 ≤ (normalizeWith dflt mx ⟨pageOpt, psOpt⟩).2.2.1 := by
    cases pageOpt with
    | none => simp [normalizeWith]
    | some pg =>
        by_cases hpg : pg < 1
        · simp [normalizeWith, hpg]
        · simp [normalizeWith, hpg]
          omega
  have hps : 1 ≤ (normalizeWith dflt mx ⟨pageOpt, psOpt⟩).2.2.2 := by
    cases psOpt with
    | none => simpa [normalizeWith] using hd
    | some ps =>
        by_cases h1 : ps < 1
        · simpa [normalizeWith, h1] using hd
        · by_cases h2 : ps > mx <;> simp [normalizeWith, h1, h2] <;> omega
  refine ⟨hpage, ?_, ?_, ?_, ?_, ?_, ?_, ?_, hps, rfl, rfl, ?_, ?_⟩
  · intro h
    subst h
    simp [normalizeWith]
  · intro pg h hlt
    subst h
    simp [normalizeWith, hlt]
  · intro pg h hle
    subst h
    simp [normalizeWith]
    omega
  · intro h
    subst h
    simp [normalizeWith]
  · intro ps h hlt
    subst h
    simp [normalizeWith, hlt]
  · intro ps h hgt
    subst h
    have h1 : ¬ ps < 1 := by omega
    simp [normalizeWith, h1, hgt]
  · intro ps h h1 h2
    subst h
    have h1' : ¬ ps < 1 := by omega
    have h2' : ¬ ps > mx := by omega
    simp [normalizeWith, h1', h2']
  · have hlim : (normalizeWith dflt mx ⟨pageOpt, psOpt⟩).1 =
        (normalizeWith dflt mx ⟨pageOpt, psOpt⟩).2.2.2 := rfl
    omega
  · have : (normalizeWith dflt mx ⟨pageOpt, psOpt⟩).2.1 =
        ((normalizeWith dflt mx ⟨pageOpt, psOpt⟩).2.2.1 - 1) *
          (normalizeWith dflt mx ⟨pageOpt, psOpt⟩).2.2.2 := rfl
    rw [this]
    exact mul_nonneg (by omega) (by omega)

/-- Witness for C2 at default 10, maximum 100, and the invalid input
`page = -5, page_size = 1000`. -/
theorem c2_witness :
    (1 : Int) ≤ 10 ∧ (10 : Int) ≤ 100 ∧
    (1 ≤ (normalizeWith 10 100 ⟨some (-5), some 1000⟩).2.2.1 ∧
     (normalizeWith 10 100 ⟨some (-5), some 1000⟩).2.2.2 = 100 ∧
     0 ≤ (normalizeWith 10 100 ⟨some (-5), some 1000⟩).2.1) := by
  have h := c2_normalize_clamps 10 100 ⟨some (-5), some 1000⟩ (by norm_num) (by norm_num)
  exact ⟨by norm_num, by norm_num,
    h.1, h.2.2.2.2.2.2.1 1000 rfl (by norm_num), h.2.2.2.2.2.2.2.2.2.2.2.2⟩

/-- C6: a `PaginatedResponse` built from a page size of at least 1 has
`total_pages = ceil(total_records / page_size)`, and `total_pages = 0` iff
`total_records = 0`. -/
theorem c6_total_pages_ceil {α : Type} (items : List α) (total_records : Nat)
    (page : Int) (page_size : Nat) (h : 1 ≤ page_size) :
    (PaginatedResponse.new items total_records page page_size).total_pages =
      total_records ⌈/⌉ page_size ∧
    ((PaginatedResponse.new items total_records page page_size).total_pages = 0 ↔
      total_records = 0) := by
  have hform : (PaginatedResponse.new items total_records page page_size).total_pages =
      (total_records + page_size - 1) / page_size := rfl
  constructor
  · rw [hform, Nat.ceilDiv_eq_add_pred_div]
  · rw [hform, Nat.div_eq_zero_iff (by omega)]
    omega

/-- Witness for C6 at 5 total records and page size 2 (3 pages). -/
theorem c6_witness :
    1 ≤ 2 ∧
    ((PaginatedResponse.new ([] : List Nat) 5 1 2).total_pages = 5 ⌈/⌉ 2 ∧
     ((PaginatedResponse.new ([] : List Nat) 5 1 2).total_pages = 0 ↔ 5 = 0)) :=
  ⟨by norm_num, c6_total_pages_ceil ([] : List Nat) 5 1 2 (by norm_num)⟩

/-- C4: an `UpdateCustomerDto` that passes validation and has all four
updatable fields absent makes `update_customer` fail with
`NoChangesToUpdate` — a kind distinct from `NotFound` — with zero repository
invocations; with at least one field present it calls `repository.update`
once and maps an absent result to `NotFound`. -/
theorem c4_no_changes_fail_fast
    (validate : UpdateCustomerDto → Except String Unit)
    (repo_update : String → UpdateCustomerDto → Except SqlxError (Option Customer))
    (id : String) (dto : UpdateCustomerDto)
    (hv : validate dto = Except.ok ()) :
    (dto.customer_unique_id = none → dto.customer_zip_code_prefix = none →
      dto.customer_city = none → dto.customer_state = none →
      update_customer validate repo_update id dto =
        (Except.error AppError.NoChangesToUpdate, [])) ∧
    (¬(dto.customer_unique_id = none ∧ dto.customer_zip_code_prefix = none ∧
        dto.customer_city = none ∧ dto.customer_state = none) →
      repo_update id dto = Except.ok none →
      update_customer validate repo_update id dto =
        (Except.error AppError.NotFound, [(id, dto)])) ∧
    AppError.NoChangesToUpdate ≠ AppError.NotFound := by
  refine ⟨?_, ?_, by simp⟩
  · intro h1 h2 h3 h4
    simp [update_customer, hv, h1, h2, h3, h4]
  · intro hne hrepo
    have hb : (dto.customer_unique_id.isNone && dto.customer_zip_code_prefix.isNone
        && dto.customer_city.isNone && dto.customer_state.isNone) = false := by
      rw [Bool.eq_false_iff]
      intro hb
      apply hne
      simp only [Bool.and_eq_true, Option.isNone_iff_eq_none] at hb
      exact ⟨hb.1.1.1, hb.1.1.2, hb.1.2, hb.2⟩
    simp [update_customer, hv, hb, hrepo]

/-- Witness for C4: with an always-accepting validator, the all-absent DTO is
rejected with `NoChangesToUpdate` and an empty invocation trace, and a DTO
carrying only a city is mapped to `NotFound` through one repository call. -/
theorem c4_witness :
    update_customer (fun _ => Except.ok ()) (fun _ _ => Except.ok none) "c1"
        ⟨none, none, none, none⟩ = (Except.error AppError.NoChangesToUpdate, []) ∧
    update_customer (fun _ => Except.ok ()) (fun _ _ => Except.ok none) "c1"
        ⟨none, none, some "osasco", none⟩ =
      (Except.error AppError.NotFound, [("c1", ⟨none, none, some "osasco", none⟩)]) :=
  ⟨(c4_no_changes_fail_fast (fun _ => Except.ok ()) (fun _ _ => Except.ok none) "c1"
      ⟨none, none, none, none⟩ rfl).1 rfl rfl rfl rfl,
   (c4_no_changes_fail_fast (fun _ => Except.ok ()) (fun _ _ => Except.ok none) "c1"
      ⟨none, none, some "osasco", none⟩ rfl).2.1 (by simp) rfl⟩

/-- C5: for every create operation, a storage error surfaces as
`AlreadyExists(resource_name)` exactly when it is a unique-constraint
violation (SQLSTATE 23505); every other storage error surfaces as
`DatabaseError`; and creating a customer whose id is already stored yields
`AlreadyExists`, not a generic `DatabaseError`. -/
theorem c5_unique_violation_already_exists (e : SqlxError) (name : String) :
    (map_db_error e name = AppError.AlreadyExists (name ++ " already exists") ↔
      is_unique_violation e = true) ∧
    (is_unique_violation e = false → map_db_error e name = AppError.DatabaseError e) ∧
    (∀ (D E : Type) (validate : D → Except String Unit)
        (repo_create : D → Except SqlxError E) (dto : D),
      validate dto = Except.ok () → repo_create dto = Except.error e →
      create_resource name validate repo_create dto =
        Except.error (map_db_error e name)) ∧
    (∀ (store : List Customer) (dto : CreateCustomerDto),
      store.any (fun c => c.customer_id == dto.customer_id) = true →
      create_customer (fun _ => Except.ok ())
          (fun d => (pg_customer_create store d).map (fun r => r.2)) dto =
        Except.error (AppError.AlreadyExists "Customer already exists")) := by
  refine ⟨?_, ?_, ?_, ?_⟩
  · cases e with
    | Database code msg =>
        by_cases hc : code = some "23505" <;>
          simp [map_db_error, is_unique_violation, hc]
    | RowNotFound => simp [map_db_error, is_unique_violation]
    | Other msg => simp [map_db_error, is_unique_violation]
  · intro hu
    cases e with
    | Database code msg =>
        have hc : ¬ code = some "23505" := by
          intro h
          simp [is_unique_violation, h] at hu
        simp [map_db_error, hc]
    | RowNotFound => rfl
    | Other msg => rfl
  · intro D E validate repo_create dto hv hr
    simp [create_resource, hv, hr]
  · intro store dto hdup
    have : map_db_error
        (SqlxError.Database (some "23505") "duplicate key value violates unique constraint")
        "Customer" = AppError.AlreadyExists "Customer already exists" := rfl
    simp [create_customer, create_resource, pg_customer_create, hdup, Except.map, this]

/-- Witness for C5: a 23505 database error on "Customer" maps to
`AlreadyExists`, a plain storage error maps to `DatabaseError`, and the second
insert of the same customer id is rejected as `AlreadyExists`. -/
theorem c5_witness :
    map_db_error (SqlxError.Database (some "23505") "dup") "Customer" =
      AppError.AlreadyExists ("Customer" ++ " already exists") ∧
    map_db_error (SqlxError.Other "timeout") "Customer" =
      AppError.DatabaseError (SqlxError.Other "timeout") ∧
    create_customer (fun _ => Except.ok ())
        (fun d => (pg_customer_create [⟨"c1", "u1", 1, "sp", "SP"⟩] d).map (fun r => r.2))
        ⟨"c1", "u9", 9, "rj", "RJ"⟩ =
      Except.error (AppError.AlreadyExists "Customer already exists") :=
  ⟨((c5_unique_violation_already_exists (SqlxError.Database (some "23505") "dup")
        "Customer").1).mpr rfl,
   (c5_unique_violation_already_exists (SqlxError.Other "timeout") "Customer").2.1 rfl,
   (c5_unique_violation_already_exists (SqlxError.Other "ignored") "Customer").2.2.2
     [⟨"c1", "u1", 1, "sp", "SP"⟩] ⟨"c1", "u9", 9, "rj", "RJ"⟩ rfl⟩

theorem foldl_money (l : List OrderProduct) (acc : ℚ) :
    l.foldl (fun a product => a + product.price + product.freight_value) acc =
      acc + (l.map (fun product => product.price + product.freight_value)).sum := by
  induction l generalizing acc with
  | nil => simp
  | cons p l ih => simp [ih]; ring

/-- C8: `get_products_by_order_id` totals `price + freight_value` over every
joined row with exact rational arithmetic: the result is the sum of the
per-row amounts, an empty row set gives exactly 0, and the two rows
10.50/1.00 and 5.25/0.75 total exactly 17.50. -/
theorem c8_total_value_exact_sum
    (repo_find : String → Except SqlxError (List OrderProduct)) (id : String)
    (products : List OrderProduct) (h : repo_find id = Except.ok products) :
    get_products_by_order_id repo_find id =
      Except.ok ⟨products,
        (products.map (fun product => product.price + product.freight_value)).sum⟩ ∧
    (products = [] → get_products_by_order_id repo_find id = Except.ok ⟨[], 0⟩) ∧
    get_products_by_order_id
        (fun _ => Except.ok
          [⟨"p1", none, none, none, none, none, none, none, none, "d1", 10.5, 1⟩,
           ⟨"p2", none, none, none, none, none, none, none, none, "d2", 5.25, 0.75⟩])
        "o1" =
      Except.ok
        ⟨[⟨"p1", none, none, none, none, none, none, none, none, "d1", 10.5, 1⟩,
          ⟨"p2", none, none, none, none, none, none, none, none, "d2", 5.25, 0.75⟩],
         17.5⟩ := by
  refine ⟨?_, ?_, ?_⟩
  · simp [get_products_by_order_id, h, foldl_money]
  · intro he
    subst he
    simp [get_products_by_order_id, h]
  · simp only [get_products_by_order_id, List.foldl]
    norm_num

/-- Witness for C8 at a repository holding a single joined row. -/
theorem c8_witness :
    get_products_by_order_id
        (fun _ => Except.ok
          [⟨"p1", none, none, none, none, none, none, none, none, "d1", 10.5, 1⟩])
        "o1" =
      Except.ok
        ⟨[⟨"p1", none, none, none, none, none, none, none, none, "d1", 10.5, 1⟩],
         ([⟨"p1", none, none, none, none, none, none, none, none, "d1", 10.5, 1⟩].map
             (fun product : OrderProduct => product.price + product.freight_value)).sum⟩ :=
  (c8_total_value_exact_sum
      (fun _ => Except.ok
        [⟨"p1", none, none, none, none, none, none, none, none, "d1", 10.5, 1⟩])
      "o1" _ rfl).1

/-- C9: `delete_customer` returns `NotFound` exactly when the repository
reports zero affected rows and plain success otherwise; over the table-state
model of `PgCustomerRepository::delete`, deleting an existing id succeeds and
immediately repeating the delete on the resulting state returns `NotFound`. -/
theorem c9_delete_not_found_iff_zero_rows :
    (∀ (repo_delete : String → Except SqlxError Nat) (id : String) (rows : Nat),
      repo_delete id = Except.ok rows →
      ((delete_customer repo_delete id = Except.error AppError.NotFound ↔ rows = 0) ∧
       (rows ≠ 0 → delete_customer repo_delete id = Except.ok ()))) ∧
    (∀ (store : List Customer) (id : String),
      store.any (fun c => c.customer_id == id) = true →
      delete_customer (fun i => Except.ok (pg_customer_delete store i).2) id =
        Except.ok () ∧
      delete_customer
          (fun i => Except.ok (pg_customer_delete (pg_customer_delete store id).1 i).2)
          id =
        Except.error AppError.NotFound) := by
  constructor
  · intro repo_delete id rows h
    constructor
    · constructor
      · intro hd
        by_contra hne
        simp [delete_customer, h, hne] at hd
      · intro hz
        simp [delete_customer, h, hz]
    · intro hne
      simp [delete_customer, h, hne]
  · intro store id hmem
    have hpos : store.countP (fun c => c.customer_id == id) ≠ 0 := by
      rw [List.any_eq_true] at hmem
      obtain ⟨c, hc, hcid⟩ := hmem
      have hpos' : 0 < store.countP (fun c => c.customer_id == id) :=
        List.countP_pos_iff.mpr ⟨c, hc, hcid⟩
      omega
    have hzero :
        ((pg_customer_delete store id).1).countP (fun c => c.customer_id == id) = 0 := by
      rw [List.countP_eq_zero]
      intro c hc
      rcases List.mem_filter.mp hc with ⟨-, hkeep⟩
      simpa using hkeep
    constructor
    · simp [delete_customer, pg_customer_delete, hpos]
    · simp only [delete_customer, pg_customer_delete]
      rw [if_pos]
      exact hzero

/-- Witness for C9: the zero-rows branch at a stub repository, and the
delete-twice scenario over a one-row table. -/
theorem c9_witness :
    (delete_customer (fun _ => Except.ok 0) "missing" = Except.error AppError.NotFound ↔
      0 = 0) ∧
    delete_customer
        (fun i => Except.ok (pg_customer_delete [⟨"c1", "u1", 1, "sp", "SP"⟩] i).2) "c1" =
      Except.ok () ∧
    delete_customer
        (fun i => Except.ok
          (pg_customer_delete (pg_customer_delete [⟨"c1", "u1", 1, "sp", "SP"⟩] "c1").1 i).2)
        "c1" =
      Except.error AppError.NotFound :=
  ⟨(c9_delete_not_found_iff_zero_rows.1 (fun _ => Except.ok 0) "missing" 0 rfl).1,
   (c9_delete_not_found_iff_zero_rows.2 [⟨"c1", "u1", 1, "sp", "SP"⟩] "c1" rfl).1,
   (c9_delete_not_found_iff_zero_rows.2 [⟨"c1", "u1", 1, "sp", "SP"⟩] "c1" rfl).2⟩

/-- C10: the order sub-resource reads never return `NotFound`: whenever the
repository returns rows (in particular none at all, as for a nonexistent
order id), `get_products_by_order_id` succeeds — with an empty product list
and a total of exactly 0 when there are no rows — and
`get_payments_by_order_id` and `get_reviews_by_order_id` succeed with the row
list; by contrast `get_order_by_id` maps an absent row to `NotFound`. -/
theorem c10_subresources_empty_ok (id : String)
    (repo_products : String → Except SqlxError (List OrderProduct))
    (repo_payments : String → Except SqlxError (List Payment))
    (repo_reviews : String → Except SqlxError (List Review))
    (repo_order : String → Except SqlxError (Option Order)) :
    (repo_products id = Except.ok [] →
      get_products_by_order_id repo_products id = Except.ok ⟨[], 0⟩) ∧
    (∀ payments, repo_payments id = Except.ok payments →
      get_payments_by_order_id repo_payments id = Except.ok payments ∧
      get_payments_by_order_id repo_payments id ≠ Except.error AppError.NotFound) ∧
    (∀ reviews, repo_reviews id = Except.ok reviews →
      get_reviews_by_order_id repo_reviews id = Except.ok reviews ∧
      get_reviews_by_order_id repo_reviews id ≠ Except.error AppError.NotFound) ∧
    (∀ products, repo_products id = Except.ok products →
      get_products_by_order_id repo_products id ≠ Except.error AppError.NotFound) ∧
    (repo_order id = Except.ok none →
      get_order_by_id repo_order id = Except.error AppError.NotFound) := by
  refine ⟨?_, ?_, ?_, ?_, ?_⟩
  · intro h
    simp [get_products_by_order_id, h]
  · intro payments h
    simp [get_payments_by_order_id, h]
  · intro reviews h
    simp [get_reviews_by_order_id, h]
  · intro products h
    simp [get_products_by_order_id, h]
  · intro h
    simp [get_order_by_id, h]

/-- Witness for C10 at repositories with no matching rows for the id. -/
theorem c10_witness :
    get_products_by_order_id (fun _ => Except.ok []) "missing" = Except.ok ⟨[], 0⟩ ∧
    get_payments_by_order_id (fun _ => Except.ok []) "missing" = Except.ok [] ∧
    get_reviews_by_order_id (fun _ => Except.ok []) "missing" = Except.ok [] ∧
    get_order_by_id (fun _ => Except.ok none) "missing" = Except.error AppError.NotFound :=
  ⟨(c10_subresources_empty_ok "missing" (fun _ => Except.ok [])
      (fun _ => Except.ok []) (fun _ => Except.ok []) (fun _ => Except.ok none)).1 rfl,
   ((c10_subresources_empty_ok "missing" (fun _ => Except.ok [])
      (fun _ => Except.ok []) (fun _ => Except.ok []) (fun _ => Except.ok none)).2.1
      [] rfl).1,
   ((c10_subresources_empty_ok "missing" (fun _ => Except.ok [])
      (fun _ => Except.ok []) (fun _ => Except.ok []) (fun _ => Except.ok none)).2.2.1
      [] rfl).1,
   (c10_subresources_empty_ok "missing" (fun _ => Except.ok [])
      (fun _ => Except.ok []) (fun _ => Except.ok []) (fun _ => Except.ok none)).2.2.2.2
      rfl⟩

/-- A concrete seller used to exhibit the seller pagination defect. -/
def sellerA : Seller := ⟨"sA", 1, "sao paulo", "SP"⟩

/-- A second concrete seller; it is never returned by the paginated fetches
below. -/
def sellerB : Seller := ⟨"sB", 2, "rio de janeiro", "RJ"⟩

/-- A concrete customer with the lower zip code prefix. -/
def customerA : Customer := ⟨"cA", "uA", 10, "sao paulo", "SP"⟩

/-- A concrete customer with the higher zip code prefix. -/
def customerB : Customer := ⟨"cB", "uB", 20, "rio de janeiro", "RJ"⟩

/-- C7: the seller `find_all` SELECT has no ORDER BY clause, so its page
order is the storage engine's enumeration order for that query.  With the
two-seller table, no filter and page size 1, the engine may enumerate the
rows as `[sellerA, sellerB]` when page 1 is fetched and as the permutation
`[sellerB, sellerA]` when page 2 is fetched: both pages are `[sellerA]`, so
`sellerA` repeats and `sellerB` is skipped — refuting the claimed
deterministic, non-repeating pagination.  By contrast `customer_find_all`,
whose SELECT carries `ORDER BY customer_zip_code_prefix DESC`, returns the
correctly partitioned pages `[customerB]` then `[customerA]` over the same
pair of enumerations. -/
theorem c7_seller_missing_order_by :
    List.Perm [sellerA, sellerB] [sellerB, sellerA] ∧
    (seller_find_all [sellerA, sellerB] ⟨none, none⟩ ⟨some 1, some 1⟩).1 = [sellerA] ∧
    (seller_find_all [sellerB, sellerA] ⟨none, none⟩ ⟨some 2, some 1⟩).1 = [sellerA] ∧
    sellerB ∉ (seller_find_all [sellerA, sellerB] ⟨none, none⟩ ⟨some 1, some 1⟩).1 ++
        (seller_find_all [sellerB, sellerA] ⟨none, none⟩ ⟨some 2, some 1⟩).1 ∧
    List.Perm [customerA, customerB] [customerB, customerA] ∧
    (customer_find_all [customerA, customerB] ⟨none, none⟩ ⟨some 1, some 1⟩).1 =
      [customerB] ∧
    (customer_find_all [customerB, customerA] ⟨none, none⟩ ⟨some 2, some 1⟩).1 =
      [customerA] :=
  ⟨List.Perm.swap sellerB sellerA [], rfl, rfl, by decide,
   List.Perm.swap customerB customerA [], rfl, rfl⟩

end Ecommerce
